import Mathlib

/-!
Shallow embedding of the nRFCloud webhook handler (`src/index.js`).

The handler is an async function taking `req`, `res`, `log`, `error`.
We model it as a pure function from the environment, the request, and
oracles for the external collaborators (Node's `crypto` HMAC digest,
`JSON.parse`, and the Appwrite `createDocument` store) to a result
recording the HTTP response (or an uncaught exception), the sequence of
`createDocument` calls issued, whether the Appwrite client was
constructed (and from which environment values), and the log entries.
-/

namespace NrfWebhook

/-- JSON values, as produced by `JSON.parse`. Numbers are modelled as
integers (no claim depends on float behaviour). -/
inductive Json where
  | null
  | bool (b : Bool)
  | num (n : Int)
  | str (s : String)
  | arr (items : List Json)
  | obj (fields : List (String × Json))

mutual

/-- Decidable equality for JSON values. -/
def Json.decEq : (a b : Json) → Decidable (a = b)
  | .null, .null => .isTrue rfl
  | .null, .bool _ => .isFalse (fun h => Json.noConfusion h)
  | .null, .num _ => .isFalse (fun h => Json.noConfusion h)
  | .null, .str _ => .isFalse (fun h => Json.noConfusion h)
  | .null, .arr _ => .isFalse (fun h => Json.noConfusion h)
  | .null, .obj _ => .isFalse (fun h => Json.noConfusion h)
  | .bool _, .null => .isFalse (fun h => Json.noConfusion h)
  | .bool a, .bool b =>
      if h : a = b then .isTrue (h ▸ rfl) else .isFalse (fun hc => h (Json.bool.inj hc))
  | .bool _, .num _ => .isFalse (fun h => Json.noConfusion h)
  | .bool _, .str _ => .isFalse (fun h => Json.noConfusion h)
  | .bool _, .arr _ => .isFalse (fun h => Json.noConfusion h)
  | .bool _, .obj _ => .isFalse (fun h => Json.noConfusion h)
  | .num _, .null => .isFalse (fun h => Json.noConfusion h)
  | .num _, .bool _ => .isFalse (fun h => Json.noConfusion h)
  | .num a, .num b =>
      if h : a = b then .isTrue (h ▸ rfl) else .isFalse (fun hc => h (Json.num.inj hc))
  | .num _, .str _ => .isFalse (fun h => Json.noConfusion h)
  | .num _, .arr _ => .isFalse (fun h => Json.noConfusion h)
  | .num _, .obj _ => .isFalse (fun h => Json.noConfusion h)
  | .str _, .null => .isFalse (fun h => Json.noConfusion h)
  | .str _, .bool _ => .isFalse (fun h => Json.noConfusion h)
  | .str _, .num _ => .isFalse (fun h => Json.noConfusion h)
  | .str a, .str b =>
      if h : a = b then .isTrue (h ▸ rfl) else .isFalse (fun hc => h (Json.str.inj hc))
  | .str _, .arr _ => .isFalse (fun h => Json.noConfusion h)
  | .str _, .obj _ => .isFalse (fun h => Json.noConfusion h)
  | .arr _, .null => .isFalse (fun h => Json.noConfusion h)
  | .arr _, .bool _ => .isFalse (fun h => Json.noConfusion h)
  | .arr _, .num _ => .isFalse (fun h => Json.noConfusion h)
  | .arr _, .str _ => .isFalse (fun h => Json.noConfusion h)
  | .arr xs, .arr ys =>
      match decEqItems xs ys with
      | .isTrue h => .isTrue (h ▸ rfl)
      | .isFalse h => .isFalse (fun hc => h (Json.arr.inj hc))
  | .arr _, .obj _ => .isFalse (fun h => Json.noConfusion h)
  | .obj _, .null => .isFalse (fun h => Json.noConfusion h)
  | .obj _, .bool _ => .isFalse (fun h => Json.noConfusion h)
  | .obj _, .num _ => .isFalse (fun h => Json.noConfusion h)
  | .obj _, .str _ => .isFalse (fun h => Json.noConfusion h)
  | .obj _, .arr _ => .isFalse (fun h => Json.noConfusion h)
  | .obj fs, .obj gs =>
      match decEqFields fs gs with
      | .isTrue h => .isTrue (h ▸ rfl)
      | .isFalse h => .isFalse (fun hc => h (Json.obj.inj hc))

def decEqItems : (xs ys : List Json) → Decidable (xs = ys)
  | [], [] => .isTrue rfl
  | [], _ :: _ => .isFalse (fun h => List.noConfusion h)
  | _ :: _, [] => .isFalse (fun h => List.noConfusion h)
  | x :: xs, y :: ys =>
      match Json.decEq x y, decEqItems xs ys with
      | .isTrue h1, .isTrue h2 => .isTrue (h1 ▸ h2 ▸ rfl)
      | .isFalse h1, _ => .isFalse (fun hc => h1 (List.cons.inj hc).1)
      | _, .isFalse h2 => .isFalse (fun hc => h2 (List.cons.inj hc).2)

def decEqFields : (fs gs : List (String × Json)) → Decidable (fs = gs)
  | [], [] => .isTrue rfl
  | [], _ :: _ => .isFalse (fun h => List.noConfusion h)
  | _ :: _, [] => .isFalse (fun h => List.noConfusion h)
  | (k, v) :: fs, (l, w) :: gs =>
      match String.decEq k l, Json.decEq v w, decEqFields fs gs with
      | .isTrue h1, .isTrue h2, .isTrue h3 => .isTrue (h1 ▸ h2 ▸ h3 ▸ rfl)
      | .isFalse h1, _, _ => .isFalse (fun hc => h1 (Prod.mk.inj (List.cons.inj hc).1).1)
      | _, .isFalse h2, _ => .isFalse (fun hc => h2 (Prod.mk.inj (List.cons.inj hc).1).2)
      | _, _, .isFalse h3 => .isFalse (fun hc => h3 (List.cons.inj hc).2)

end

instance : DecidableEq Json := Json.decEq

/-- Last-binding-wins lookup, matching JS object semantics where a later
duplicate key shadows an earlier one. -/
def lookupLast (key : String) : List (String × Json) → Option Json
  | [] => none
  | (k, v) :: rest =>
    match lookupLast key rest with
    | some w => some w
    | none => if k = key then some v else none

/-- JS property access `j.key` on a non-null value: `some` for a present
object field, `none` (JS `undefined`) otherwise. Property access on
`null` throws a TypeError; callers model that case explicitly. -/
def Json.getField : Json → String → Option Json
  | .obj fields, key => lookupLast key fields
  | _, _ => none

/-- JS truthiness of a JSON value. -/
def Json.truthy : Json → Bool
  | .null => false
  | .bool b => b
  | .num n => n != 0
  | .str s => s != ""
  | .arr _ => true
  | .obj _ => true

def Json.isObj : Json → Bool
  | .obj _ => true
  | _ => false

/-- `message.device_id || 'unknown'`: the field's value when present and
truthy, otherwise the string `"unknown"`. -/
def jsOrUnknown : Option Json → Json
  | some j => if j.truthy then j else .str "unknown"
  | none => .str "unknown"

/-- One hex digit, lowercase, as produced by Node's `digest('hex')`. -/
def hexDigitChar (n : Nat) : Char :=
  if n < 10 then Char.ofNat (48 + n) else Char.ofNat (87 + n)

/-- Two lowercase hex digits for one byte. -/
def byteToHex (b : Nat) : String :=
  String.singleton (hexDigitChar (b % 256 / 16)) ++ String.singleton (hexDigitChar (b % 16))

/-- Lowercase hex encoding of a byte sequence (Node `digest('hex')`). -/
def bytesToHex (bs : List Nat) : String :=
  String.join (bs.map byteToHex)

/-- JSON string escaping for one character, as in `JSON.stringify`. -/
def escapeChar (c : Char) : String :=
  if c = '"' then "\\\""
  else if c = '\\' then "\\\\"
  else if c = '\n' then "\\n"
  else if c = '\r' then "\\r"
  else if c = '\t' then "\\t"
  else if c.toNat = 8 then "\\b"
  else if c.toNat = 12 then "\\f"
  else if c.toNat < 32 then
    "\\u00" ++ byteToHex c.toNat
  else String.singleton c

/-- A JSON string literal: quotes around the escaped characters. -/
def jsonEscape (s : String) : String :=
  "\"" ++ String.join (s.data.map escapeChar) ++ "\""

mutual

/-- `JSON.stringify` on a JSON value. -/
def Json.stringify : Json → String
  | .null => "null"
  | .bool true => "true"
  | .bool false => "false"
  | .num n => toString n
  | .str s => jsonEscape s
  | .arr items => "[" ++ stringifyItems items ++ "]"
  | .obj fields => "\x7b" ++ stringifyFields fields ++ "\x7d"

def stringifyItems : List Json → String
  | [] => ""
  | [x] => Json.stringify x
  | x :: y :: rest => Json.stringify x ++ "," ++ stringifyItems (y :: rest)

def stringifyFields : List (String × Json) → String
  | [] => ""
  | [(k, v)] => jsonEscape k ++ ":" ++ Json.stringify v
  | (k, v) :: f :: rest => jsonEscape k ++ ":" ++ Json.stringify v ++ "," ++ stringifyFields (f :: rest)

end

/-- The process environment: each variable is `none` (unset) or a string. -/
structure Env where
  NRFCLOUD_WEBHOOK_SECRET : Option String
  DATABASE_ID : Option String
  COLLECTION_ID : Option String
  APPWRITE_ENDPOINT : Option String
  APPWRITE_PROJECT_ID : Option String
  APPWRITE_API_KEY : Option String
  deriving DecidableEq

/-- The incoming HTTP request: method, header map, raw body. -/
structure Request where
  method : String
  headers : List (String × String)
  body : String
  deriving DecidableEq

/-- Exact-key header lookup, as `req.headers['x-nrfcloud-signature']`. -/
def lookupHeader (key : String) : List (String × String) → Option String
  | [] => none
  | (k, v) :: rest => if k = key then some v else lookupHeader key rest

/-- One `databases.createDocument(...)` call, with the arguments the
handler passes (field values are `none` when the JS value is `undefined`;
`payload` is `none` when `JSON.stringify` is applied to `undefined`). -/
structure DocCall where
  databaseId : String
  collectionId : String
  docId : String
  deviceId : Option Json
  appId : Option Json
  timestamp : Option Json
  payload : Option String
  deriving DecidableEq

/-- The environment values read when the Appwrite `Client` is built. -/
structure ClientCfg where
  endpoint : Option String
  projectId : Option String
  apiKey : Option String
  deriving DecidableEq

/-- Log entries, recorded structurally (the data interpolated into each
`log`/`error` message) rather than as formatted strings. -/
inductive LogEntry where
  | missingEnv
  | missingSignature
  | sigMismatch (calculated received : String)
  | sigVerified
  | invalidJson
  | verificationToken (token : Option Json)
  | processingCount (n : Nat)
  | storedMessage (deviceId : Option Json)
  | dbError (deviceId : Json)
  | noMessages
  deriving DecidableEq

/-- How the invocation ends: an HTTP response via `res.send(body, status)`,
or an uncaught exception (the async function rejects). -/
inductive Outcome where
  | response (body : String) (status : Nat)
  | crash
  deriving DecidableEq

structure HandlerResult where
  outcome : Outcome
  calls : List DocCall
  client : Option ClientCfg
  logs : List LogEntry
  deriving DecidableEq

structure LoopResult where
  calls : List DocCall
  logs : List LogEntry
  crashed : Bool
  deriving DecidableEq

/-- The `createDocument` call built for one (non-null) message: reads
`device_id`, `appId`, `ts`, `payload` and stores the stringified payload
under a store-generated id (`'unique()'`). -/
def mkCall (databaseId collectionId : String) (m : Json) : DocCall :=
  { databaseId := databaseId
    collectionId := collectionId
    docId := "unique()"
    deviceId := m.getField "device_id"
    appId := m.getField "appId"
    timestamp := m.getField "ts"
    payload := (m.getField "payload").map Json.stringify }

/-- The `for (const message of payload.messages)` loop. `writeOk i`
says whether the i-th `createDocument` call of this invocation succeeds;
a failure is caught, logged, and the loop continues. A `null` message
throws a TypeError at `message.device_id`; the catch block re-reads
`message.device_id` and the second TypeError escapes, crashing the
handler before any further message is attempted. -/
def processMessages (databaseId collectionId : String) (writeOk : Nat → Bool) :
    List Json → Nat → LoopResult
  | [], _ => ⟨[], [], false⟩
  | m :: rest, i =>
    if m = Json.null then ⟨[], [], true⟩
    else
      let call := mkCall databaseId collectionId m
      let entry :=
        if writeOk i then LogEntry.storedMessage (m.getField "device_id")
        else LogEntry.dbError (jsOrUnknown (m.getField "device_id"))
      let r := processMessages databaseId collectionId writeOk rest (i + 1)
      ⟨call :: r.calls, entry :: r.logs, r.crashed⟩

/-- The handler of `src/index.js`, parameterized by the external
collaborators: `hmacDigest secret body` is the raw HMAC-SHA256 digest
bytes from Node's `crypto`, `parse` is `JSON.parse` on the raw body, and
`writeOk` is the store oracle for `createDocument`. Environment variables
read as `undefined` behave as the empty string under the falsiness
checks, so both are normalized with `getD ""`. -/
def handler (env : Env) (req : Request) (hmacDigest : String → String → List Nat)
    (parse : String → Except String Json) (writeOk : Nat → Bool) : HandlerResult :=
  let webhookSecret := env.NRFCLOUD_WEBHOOK_SECRET.getD ""
  let databaseId := env.DATABASE_ID.getD ""
  let collectionId := env.COLLECTION_ID.getD ""
  if webhookSecret = "" ∨ databaseId = "" ∨ collectionId = "" then
    ⟨.response "Internal Server Error" 500, [], none, [.missingEnv]⟩
  else if req.method ≠ "POST" then
    ⟨.response "Method Not Allowed" 405, [], none, []⟩
  else
    let nrfSignature := (lookupHeader "x-nrfcloud-signature" req.headers).getD ""
    if nrfSignature = "" then
      ⟨.response "Unauthorized: Missing signature" 401, [], none, [.missingSignature]⟩
    else
      let calculatedSignature := bytesToHex (hmacDigest webhookSecret req.body)
      if calculatedSignature ≠ nrfSignature then
        ⟨.response "Unauthorized: Invalid signature" 401, [], none,
          [.sigMismatch calculatedSignature nrfSignature]⟩
      else
        match parse req.body with
        | .error _ => ⟨.response "Invalid JSON" 400, [], none, [.sigVerified, .invalidJson]⟩
        | .ok payload =>
          if payload = Json.null then
            ⟨.crash, [], none, [.sigVerified]⟩
          else if payload.getField "event" = some (Json.str "verification") then
            ⟨.response "Verification request acknowledged" 200, [], none,
              [.sigVerified, .verificationToken (payload.getField "token")]⟩
          else
            match payload.getField "messages" with
            | some (Json.arr msgs) =>
              if msgs.length > 0 then
                let cfg : ClientCfg :=
                  ⟨env.APPWRITE_ENDPOINT, env.APPWRITE_PROJECT_ID, env.APPWRITE_API_KEY⟩
                let r := processMessages databaseId collectionId writeOk msgs 0
                ⟨if r.crashed then .crash else .response "Webhook processing complete" 200,
                  r.calls, some cfg, [.sigVerified, .processingCount msgs.length] ++ r.logs⟩
              else
                ⟨.response "Webhook processing complete" 200, [], none, [.sigVerified, .noMessages]⟩
            | _ =>
              ⟨.response "Webhook processing complete" 200, [], none, [.sigVerified, .noMessages]⟩

/-- The three values required by the env gate, all present and non-empty
(an unset variable reads as `undefined`, which is falsy like `""`). -/
def envOk (env : Env) : Prop :=
  env.NRFCLOUD_WEBHOOK_SECRET.getD "" ≠ "" ∧ env.DATABASE_ID.getD "" ≠ "" ∧
    env.COLLECTION_ID.getD "" ≠ ""

instance (env : Env) : Decidable (envOk env) := by
  unfold envOk; infer_instance

/-- The signature header value the handler reads (empty when the key is
absent, which the falsiness check then treats as missing). -/
def sigHeader (req : Request) : String :=
  (lookupHeader "x-nrfcloud-signature" req.headers).getD ""

/-- `calculatedSignature`: lowercase hex of the HMAC-SHA256 digest of the
raw body under the configured secret. -/
def calcSig (env : Env) (req : Request) (hmacDigest : String → String → List Nat) : String :=
  bytesToHex (hmacDigest (env.NRFCLOUD_WEBHOOK_SECRET.getD "") req.body)

/-- A message with all four fields the source reads (`device_id`, `appId`,
`ts`, `payload`) present on a JSON object. -/
def wellFormedMessage (m : Json) : Bool :=
  m.isObj && (m.getField "device_id").isSome && (m.getField "appId").isSome &&
    (m.getField "ts").isSome && (m.getField "payload").isSome

/-! Concrete fixtures used by the witnesses and counterexamples.
`digestStub` stands in for the HMAC-SHA256 oracle; `bytesToHex` of its
output is `"0001abff"`. -/

def envFull : Env :=
  ⟨some "topsecret", some "maindb", some "telemetry",
    some "https://aw.example", some "proj1", some "key1"⟩

def envNone : Env := ⟨none, none, none, none, none, none⟩

def envEmptySecret : Env := ⟨some "", some "maindb", some "telemetry", none, none, none⟩

def digestStub : String → String → List Nat := fun _ _ => [0, 1, 171, 255]

def msg1 : Json :=
  Json.obj [("device_id", Json.str "dev1"), ("appId", Json.str "TEMP"),
    ("ts", Json.str "2024-01-01T00:00:00Z"), ("payload", Json.num 21)]

def msg2 : Json :=
  Json.obj [("device_id", Json.str "dev2"), ("appId", Json.str "HUMID"),
    ("ts", Json.str "2024-01-01T00:00:01Z"), ("payload", Json.str "ok")]

def reqSigned : Request := ⟨"POST", [("x-nrfcloud-signature", "0001abff")], "rawbody"⟩

def reqGet : Request := ⟨"GET", [], "rawbody"⟩

def reqEmptySig : Request := ⟨"POST", [("x-nrfcloud-signature", "")], "rawbody"⟩

def reqUpperSig : Request := ⟨"POST", [("X-NRFCLOUD-SIGNATURE", "0001abff")], "rawbody"⟩

def payloadTele : Json := Json.obj [("messages", Json.arr [msg1, msg2])]

def payloadVerify : Json :=
  Json.obj [("event", Json.str "verification"), ("token", Json.str "tok123"),
    ("messages", Json.arr [msg1])]

def payloadEmptyMsgs : Json := Json.obj [("messages", Json.arr [])]

def payloadMsgNull : Json := Json.obj [("messages", Json.arr [msg1, Json.null])]

def parseTele : String → Except String Json := fun _ => .ok payloadTele

def parseVerify : String → Except String Json := fun _ => .ok payloadVerify

def parseNull : String → Except String Json := fun _ => .ok Json.null

def parseEmptyMsgs : String → Except String Json := fun _ => .ok payloadEmptyMsgs

def parseMsgNull : String → Except String Json := fun _ => .ok payloadMsgNull

def writeAllOk : Nat → Bool := fun _ => true

def writeFail0 : Nat → Bool := fun i => decide (0 < i)

def writeNever : Nat → Bool := fun _ => false

theorem handler_env_missing (env : Env) (req : Request)
    (hmacDigest : String → String → List Nat) (parse : String → Except String Json)
    (writeOk : Nat → Bool) (h : ¬ envOk env) :
    handler env req hmacDigest parse writeOk =
      ⟨.response "Internal Server Error" 500, [], none, [.missingEnv]⟩ := by
  have h' : env.NRFCLOUD_WEBHOOK_SECRET.getD "" = "" ∨ env.DATABASE_ID.getD "" = "" ∨
      env.COLLECTION_ID.getD "" = "" := by
    unfold envOk at h; tauto
  simp only [handler]
  rw [if_pos h']

theorem handler_not_post (env : Env) (req : Request)
    (hmacDigest : String → String → List Nat) (parse : String → Except String Json)
    (writeOk : Nat → Bool) (henv : envOk env) (h : req.method ≠ "POST") :
    handler env req hmacDigest parse writeOk =
      ⟨.response "Method Not Allowed" 405, [], none, []⟩ := by
  obtain ⟨h1, h2, h3⟩ := henv
  simp only [handler]
  rw [if_neg (by tauto), if_pos h]

theorem handler_missing_sig (env : Env) (req : Request)
    (hmacDigest : String → String → List Nat) (parse : String → Except String Json)
    (writeOk : Nat → Bool) (henv : envOk env) (hpost : req.method = "POST")
    (h : sigHeader req = "") :
    handler env req hmacDigest parse writeOk =
      ⟨.response "Unauthorized: Missing signature" 401, [], none, [.missingSignature]⟩ := by
  obtain ⟨h1, h2, h3⟩ := henv
  unfold sigHeader at h
  simp only [handler]
  rw [if_neg (by tauto), if_neg (by simp [hpost]), if_pos h]

theorem handler_bad_sig (env : Env) (req : Request)
    (hmacDigest : String → String → List Nat) (parse : String → Except String Json)
    (writeOk : Nat → Bool) (henv : envOk env) (hpost : req.method = "POST")
    (hne : sigHeader req ≠ "") (h : calcSig env req hmacDigest ≠ sigHeader req) :
    handler env req hmacDigest parse writeOk =
      ⟨.response "Unauthorized: Invalid signature" 401, [], none,
        [.sigMismatch (calcSig env req hmacDigest) (sigHeader req)]⟩ := by
  obtain ⟨h1, h2, h3⟩ := henv
  unfold sigHeader at hne h ⊢
  unfold calcSig at h ⊢
  simp only [handler]
  rw [if_neg (by tauto), if_neg (by simp [hpost]), if_neg hne, if_pos h]

theorem handler_bad_json (env : Env) (req : Request)
    (hmacDigest : String → String → List Nat) (parse : String → Except String Json)
    (writeOk : Nat → Bool) (henv : envOk env) (hpost : req.method = "POST")
    (hne : sigHeader req ≠ "") (heq : calcSig env req hmacDigest = sigHeader req)
    (e : String) (hp : parse req.body = .error e) :
    handler env req hmacDigest parse writeOk =
      ⟨.response "Invalid JSON" 400, [], none, [.sigVerified, .invalidJson]⟩ := by
  obtain ⟨h1, h2, h3⟩ := henv
  unfold sigHeader at hne heq
  unfold calcSig at heq
  simp only [handler]
  rw [if_neg (by tauto), if_neg (by simp [hpost]), if_neg hne, if_neg (by simp [heq]), hp]

theorem handler_null_payload (env : Env) (req : Request)
    (hmacDigest : String → String → List Nat) (parse : String → Except String Json)
    (writeOk : Nat → Bool) (henv : envOk env) (hpost : req.method = "POST")
    (hne : sigHeader req ≠ "") (heq : calcSig env req hmacDigest = sigHeader req)
    (hp : parse req.body = .ok Json.null) :
    handler env req hmacDigest parse writeOk = ⟨.crash, [], none, [.sigVerified]⟩ := by
  obtain ⟨h1, h2, h3⟩ := henv
  unfold sigHeader at hne heq
  unfold calcSig at heq
  simp only [handler]
  rw [if_neg (by tauto), if_neg (by simp [hpost]), if_neg hne, if_neg (by simp [heq]), hp]
  simp

theorem handler_verification (env : Env) (req : Request)
    (hmacDigest : String → String → List Nat) (parse : String → Except String Json)
    (writeOk : Nat → Bool) (payload : Json) (henv : envOk env) (hpost : req.method = "POST")
    (hne : sigHeader req ≠ "") (heq : calcSig env req hmacDigest = sigHeader req)
    (hp : parse req.body = .ok payload)
    (hv : payload.getField "event" = some (Json.str "verification")) :
    handler env req hmacDigest parse writeOk =
      ⟨.response "Verification request acknowledged" 200, [], none,
        [.sigVerified, .verificationToken (payload.getField "token")]⟩ := by
  obtain ⟨h1, h2, h3⟩ := henv
  unfold sigHeader at hne heq
  unfold calcSig at heq
  have hnn : payload ≠ Json.null := by
    intro hn; rw [hn] at hv; simp [Json.getField] at hv
  simp only [handler]
  rw [if_neg (by tauto), if_neg (by simp [hpost]), if_neg hne, if_neg (by simp [heq]), hp]
  simp only [if_neg hnn, if_pos hv]

theorem handler_no_messages (env : Env) (req : Request)
    (hmacDigest : String → String → List Nat) (parse : String → Except String Json)
    (writeOk : Nat → Bool) (payload : Json) (henv : envOk env) (hpost : req.method = "POST")
    (hne : sigHeader req ≠ "") (heq : calcSig env req hmacDigest = sigHeader req)
    (hp : parse req.body = .ok payload) (hnn : payload ≠ Json.null)
    (hv : payload.getField "event" ≠ some (Json.str "verification"))
    (hno : ∀ msgs, payload.getField "messages" = some (Json.arr msgs) → msgs = []) :
    handler env req hmacDigest parse writeOk =
      ⟨.response "Webhook processing complete" 200, [], none, [.sigVerified, .noMessages]⟩ := by
  obtain ⟨h1, h2, h3⟩ := henv
  unfold sigHeader at hne heq
  unfold calcSig at heq
  simp only [handler]
  rw [if_neg (by tauto), if_neg (by simp [hpost]), if_neg hne, if_neg (by simp [heq]), hp]
  simp only [if_neg hnn, if_neg hv]
  rcases hg : payload.getField "messages" with _ | v
  · rfl
  · cases v with
    | arr items =>
        have : items = [] := hno items hg
        subst this
        simp
    | null => rfl
    | bool b => rfl
    | num n => rfl
    | str s => rfl
    | obj fields => rfl

theorem handler_messages (env : Env) (req : Request)
    (hmacDigest : String → String → List Nat) (parse : String → Except String Json)
    (writeOk : Nat → Bool) (payload : Json) (msgs : List Json) (henv : envOk env)
    (hpost : req.method = "POST") (hne : sigHeader req ≠ "")
    (heq : calcSig env req hmacDigest = sigHeader req) (hp : parse req.body = .ok payload)
    (hv : payload.getField "event" ≠ some (Json.str "verification"))
    (hmsgs : payload.getField "messages" = some (Json.arr msgs)) (hlen : msgs ≠ []) :
    handler env req hmacDigest parse writeOk =
      ⟨if (processMessages (env.DATABASE_ID.getD "") (env.COLLECTION_ID.getD "")
            writeOk msgs 0).crashed
          then .crash else .response "Webhook processing complete" 200,
        (processMessages (env.DATABASE_ID.getD "") (env.COLLECTION_ID.getD "")
          writeOk msgs 0).calls,
        some ⟨env.APPWRITE_ENDPOINT, env.APPWRITE_PROJECT_ID, env.APPWRITE_API_KEY⟩,
        [.sigVerified, .processingCount msgs.length] ++
          (processMessages (env.DATABASE_ID.getD "") (env.COLLECTION_ID.getD "")
            writeOk msgs 0).logs⟩ := by
  obtain ⟨h1, h2, h3⟩ := henv
  unfold sigHeader at hne heq
  unfold calcSig at heq
  have hnn : payload ≠ Json.null := by
    intro hn; rw [hn] at hmsgs; simp [Json.getField] at hmsgs
  simp only [handler]
  rw [if_neg (by tauto), if_neg (by simp [hpost]), if_neg hne, if_neg (by simp [heq]), hp]
  simp only [if_neg hnn, if_neg hv]
  rw [hmsgs]
  simp only [if_pos (List.length_pos.mpr hlen)]

theorem processMessages_calls (db col : String) (w : Nat → Bool) :
    ∀ (msgs : List Json) (i : Nat), (∀ m ∈ msgs, m ≠ Json.null) →
      (processMessages db col w msgs i).calls = msgs.map (mkCall db col)
  | [], _, _ => rfl
  | m :: rest, i, h => by
      have hm : m ≠ Json.null := h m (by simp)
      have ih := processMessages_calls db col w rest (i + 1) (fun x hx => h x (by simp [hx]))
      simp only [processMessages, if_neg hm, List.map_cons]
      rw [ih]

theorem processMessages_not_crashed (db col : String) (w : Nat → Bool) :
    ∀ (msgs : List Json) (i : Nat), (∀ m ∈ msgs, m ≠ Json.null) →
      (processMessages db col w msgs i).crashed = false
  | [], _, _ => rfl
  | m :: rest, i, h => by
      have hm : m ≠ Json.null := h m (by simp)
      have ih := processMessages_not_crashed db col w rest (i + 1) (fun x hx => h x (by simp [hx]))
      simp only [processMessages, if_neg hm]
      exact ih

theorem processMessages_logs_ok (db col : String) (w : Nat → Bool) :
    ∀ (msgs : List Json) (i : Nat), (∀ m ∈ msgs, m ≠ Json.null) → (∀ j, w j = true) →
      (processMessages db col w msgs i).logs =
        msgs.map (fun m => LogEntry.storedMessage (m.getField "device_id"))
  | [], _, _, _ => rfl
  | m :: rest, i, h, hw => by
      have hm : m ≠ Json.null := h m (by simp)
      have ih := processMessages_logs_ok db col w rest (i + 1) (fun x hx => h x (by simp [hx])) hw
      simp only [processMessages, if_neg hm, List.map_cons, if_pos (hw i)]
      rw [ih]

theorem processMessages_dbError_mem (db col : String) (w : Nat → Bool) :
    ∀ (msgs : List Json) (i k : Nat) (hk : k < msgs.length),
      (∀ m ∈ msgs, m ≠ Json.null) → w (i + k) = false →
      LogEntry.dbError (jsOrUnknown ((msgs.get ⟨k, hk⟩).getField "device_id")) ∈
        (processMessages db col w msgs i).logs
  | m :: rest, i, 0, _, h, hw => by
      have hm : m ≠ Json.null := h m (by simp)
      simp only [processMessages, if_neg hm]
      rw [if_neg (by simp_all)]
      simp
  | m :: rest, i, k + 1, hk, h, hw => by
      have hm : m ≠ Json.null := h m (by simp)
      have ih := processMessages_dbError_mem db col w rest (i + 1) k
        (by simpa using Nat.lt_of_succ_lt_succ hk) (fun x hx => h x (by simp [hx]))
        (by rw [show i + 1 + k = i + (k + 1) by omega]; exact hw)
      simp only [processMessages, if_neg hm]
      exact List.mem_cons_of_mem _ ih

theorem lookupHeader_eq_none (key : String) :
    ∀ (hs : List (String × String)), (∀ kv ∈ hs, kv.1 ≠ key) → lookupHeader key hs = none
  | [], _ => rfl
  | (k, v) :: rest, h => by
      have hk : k ≠ key := h (k, v) (by simp)
      simp only [lookupHeader, if_neg hk]
      exact lookupHeader_eq_none key rest (fun kv hkv => h kv (by simp [hkv]))

/-- Once the signature matches, the handler logs the confirmation and no
later stage can produce a 401 response. -/
theorem handler_after_verifier (env : Env) (req : Request)
    (hmacDigest : String → String → List Nat) (parse : String → Except String Json)
    (writeOk : Nat → Bool) (henv : envOk env) (hpost : req.method = "POST")
    (hne : sigHeader req ≠ "") (heq : calcSig env req hmacDigest = sigHeader req) :
    LogEntry.sigVerified ∈ (handler env req hmacDigest parse writeOk).logs ∧
      ∀ b, (handler env req hmacDigest parse writeOk).outcome ≠ .response b 401 := by
  rcases hp : parse req.body with e | payload
  · rw [handler_bad_json env req hmacDigest parse writeOk henv hpost hne heq e hp]
    exact ⟨by simp, by intro b hb; simp at hb⟩
  · by_cases hnull : payload = Json.null
    · subst hnull
      rw [handler_null_payload env req hmacDigest parse writeOk henv hpost hne heq hp]
      exact ⟨by simp, by intro b hb; simp at hb⟩
    · by_cases hv : payload.getField "event" = some (Json.str "verification")
      · rw [handler_verification env req hmacDigest parse writeOk payload henv hpost hne heq hp hv]
        exact ⟨by simp, by intro b hb; simp at hb⟩
      · rcases hg : payload.getField "messages" with _ | v
        · rw [handler_no_messages env req hmacDigest parse writeOk payload henv hpost hne heq hp
            hnull hv (by intro msgs hmm; rw [hg] at hmm; cases hmm)]
          exact ⟨by simp, by intro b hb; simp at hb⟩
        · cases v with
          | arr items =>
              by_cases hemp : items = []
              · have hno : ∀ msgs, payload.getField "messages" = some (Json.arr msgs) →
                    msgs = [] := by
                  intro msgs hmm
                  rw [hg] at hmm
                  simp only [Option.some.injEq, Json.arr.injEq] at hmm
                  subst hmm
                  exact hemp
                rw [handler_no_messages env req hmacDigest parse writeOk payload henv hpost hne heq
                  hp hnull hv hno]
                exact ⟨by simp, by intro b hb; simp at hb⟩
              · rw [handler_messages env req hmacDigest parse writeOk payload items henv hpost hne
                  heq hp hv hg hemp]
                refine ⟨by simp, ?_⟩
                intro b hb
                simp only at hb
                by_cases hc : (processMessages (env.DATABASE_ID.getD "")
                    (env.COLLECTION_ID.getD "") writeOk items 0).crashed
                · rw [if_pos hc] at hb; exact Outcome.noConfusion hb
                · rw [if_neg hc] at hb
                  injection hb with hb1 hb2
                  omega
          | null =>
              rw [handler_no_messages env req hmacDigest parse writeOk payload henv hpost hne heq
                hp hnull hv (by intro msgs hmm; rw [hg] at hmm; simp at hmm)]
              exact ⟨by simp, by intro b hb; simp at hb⟩
          | bool x =>
              rw [handler_no_messages env req hmacDigest parse writeOk payload henv hpost hne heq
                hp hnull hv (by intro msgs hmm; rw [hg] at hmm; simp at hmm)]
              exact ⟨by simp, by intro b hb; simp at hb⟩
          | num x =>
              rw [handler_no_messages env req hmacDigest parse writeOk payload henv hpost hne heq
                hp hnull hv (by intro msgs hmm; rw [hg] at hmm; simp at hmm)]
              exact ⟨by simp, by intro b hb; simp at hb⟩
          | str x =>
              rw [handler_no_messages env req hmacDigest parse writeOk payload henv hpost hne heq
                hp hnull hv (by intro msgs hmm; rw [hg] at hmm; simp at hmm)]
              exact ⟨by simp, by intro b hb; simp at hb⟩
          | obj fields =>
              rw [handler_no_messages env req hmacDigest parse writeOk payload henv hpost hne heq
                hp hnull hv (by intro msgs hmm; rw [hg] at hmm; simp at hmm)]
              exact ⟨by simp, by intro b hb; simp at hb⟩

/-- C5 (amended): for all requests whose method is not POST, *provided the
three required environment values are present and non-empty*, the response
is 405 "Method Not Allowed" and nothing else happens: no createDocument
call, no client construction, no log. When the environment configuration
is missing, the env gate's 500 takes precedence (see the counterexample). -/
theorem claim5_method_gate (env : Env) (req : Request)
    (hmacDigest : String → String → List Nat) (parse : String → Except String Json)
    (writeOk : Nat → Bool) (henv : envOk env) (h : req.method ≠ "POST") :
    handler env req hmacDigest parse writeOk =
      ⟨.response "Method Not Allowed" 405, [], none, []⟩ :=
  handler_not_post env req hmacDigest parse writeOk henv h

/-- Witness for C5: a GET request under full configuration gets 405 with
no side effects. -/
theorem claim5_method_gate_witness :
    envOk envFull ∧ reqGet.method ≠ "POST" ∧
      handler envFull reqGet digestStub parseTele writeAllOk =
        ⟨.response "Method Not Allowed" 405, [], none, []⟩ :=
  ⟨by decide, by decide,
    claim5_method_gate envFull reqGet digestStub parseTele writeAllOk (by decide) (by decide)⟩

/-- C5 counterexample: with the environment configuration absent, a GET
request is answered 500 "Internal Server Error" by the env gate, which
runs before the method gate — not 405 as the claim states. -/
theorem claim5_counterexample :
    reqGet.method ≠ "POST" ∧
      (handler envNone reqGet digestStub parseTele writeAllOk).outcome =
        .response "Internal Server Error" 500 ∧
      (handler envNone reqGet digestStub parseTele writeAllOk).outcome ≠
        .response "Method Not Allowed" 405 := by decide

/-- C7: past the env, method and signature gates, a payload whose `event`
field equals "verification" is acknowledged with 200 "Verification request
acknowledged" and the handshake token is logged; no createDocument call is
made and no client is built, even when a `messages` field is present. -/
theorem claim7_verification_ack (env : Env) (req : Request)
    (hmacDigest : String → String → List Nat) (parse : String → Except String Json)
    (writeOk : Nat → Bool) (payload : Json) (henv : envOk env)
    (hpost : req.method = "POST") (hne : sigHeader req ≠ "")
    (heq : calcSig env req hmacDigest = sigHeader req)
    (hp : parse req.body = .ok payload)
    (hv : payload.getField "event" = some (Json.str "verification")) :
    (handler env req hmacDigest parse writeOk).outcome =
        .response "Verification request acknowledged" 200 ∧
      (handler env req hmacDigest parse writeOk).calls = [] ∧
      (handler env req hmacDigest parse writeOk).client = none ∧
      LogEntry.verificationToken (payload.getField "token") ∈
        (handler env req hmacDigest parse writeOk).logs := by
  rw [handler_verification env req hmacDigest parse writeOk payload henv hpost hne heq hp hv]
  exact ⟨rfl, rfl, rfl, by simp⟩

/-- Witness for C7: a verification payload that also carries a non-empty
`messages` array is acknowledged without any persistence. -/
theorem claim7_witness :
    envOk envFull ∧ reqSigned.method = "POST" ∧ sigHeader reqSigned ≠ "" ∧
      calcSig envFull reqSigned digestStub = sigHeader reqSigned ∧
      parseVerify reqSigned.body = .ok payloadVerify ∧
      payloadVerify.getField "event" = some (Json.str "verification") ∧
      ((handler envFull reqSigned digestStub parseVerify writeAllOk).outcome =
          .response "Verification request acknowledged" 200 ∧
        (handler envFull reqSigned digestStub parseVerify writeAllOk).calls = [] ∧
        (handler envFull reqSigned digestStub parseVerify writeAllOk).client = none ∧
        LogEntry.verificationToken (payloadVerify.getField "token") ∈
          (handler envFull reqSigned digestStub parseVerify writeAllOk).logs) :=
  ⟨by decide, by decide, by decide, by decide, rfl, by decide,
    claim7_verification_ack envFull reqSigned digestStub parseVerify writeAllOk payloadVerify
      (by decide) (by decide) (by decide) (by decide) rfl (by decide)⟩

/-- C8: any of the three required environment values set to the empty
string behaves exactly like an absent variable under the falsiness gate:
the request is answered 500 "Internal Server Error" and nothing further
happens (no call, no client, only the missing-env error log). -/
theorem claim8_empty_env (env : Env) (req : Request)
    (hmacDigest : String → String → List Nat) (parse : String → Except String Json)
    (writeOk : Nat → Bool)
    (h : env.NRFCLOUD_WEBHOOK_SECRET = some "" ∨ env.DATABASE_ID = some "" ∨
      env.COLLECTION_ID = some "") :
    handler env req hmacDigest parse writeOk =
      ⟨.response "Internal Server Error" 500, [], none, [.missingEnv]⟩ := by
  apply handler_env_missing
  rintro ⟨h1, h2, h3⟩
  rcases h with h | h | h
  · rw [h] at h1; exact h1 rfl
  · rw [h] at h2; exact h2 rfl
  · rw [h] at h3; exact h3 rfl

/-- Witness for C8: an empty-string webhook secret forces 500 on an
otherwise fully well-formed POST request. -/
theorem claim8_witness :
    (envEmptySecret.NRFCLOUD_WEBHOOK_SECRET = some "" ∨
      envEmptySecret.DATABASE_ID = some "" ∨ envEmptySecret.COLLECTION_ID = some "") ∧
      handler envEmptySecret reqSigned digestStub parseTele writeAllOk =
        ⟨.response "Internal Server Error" 500, [], none, [.missingEnv]⟩ :=
  ⟨by decide,
    claim8_empty_env envEmptySecret reqSigned digestStub parseTele writeAllOk (by decide)⟩

/-- C9: the signature is read only from the exact lowercase header key
`x-nrfcloud-signature`; when the headers carry no binding for that exact
key (for instance only an uppercase spelling), the request is rejected
401 "Unauthorized: Missing signature" with no side effects. -/
theorem claim9_header_key (env : Env) (req : Request)
    (hmacDigest : String → String → List Nat) (parse : String → Except String Json)
    (writeOk : Nat → Bool) (henv : envOk env) (hpost : req.method = "POST")
    (h : ∀ kv ∈ req.headers, kv.1 ≠ "x-nrfcloud-signature") :
    handler env req hmacDigest parse writeOk =
      ⟨.response "Unauthorized: Missing signature" 401, [], none, [.missingSignature]⟩ := by
  apply handler_missing_sig env req hmacDigest parse writeOk henv hpost
  unfold sigHeader
  rw [lookupHeader_eq_none "x-nrfcloud-signature" req.headers h]
  rfl

/-- Witness for C9: the correct signature value under the uppercase key
X-NRFCLOUD-SIGNATURE is not found and the request is rejected as missing
its signature. -/
theorem claim9_witness :
    envOk envFull ∧ reqUpperSig.method = "POST" ∧
      (∀ kv ∈ reqUpperSig.headers, kv.1 ≠ "x-nrfcloud-signature") ∧
      handler envFull reqUpperSig digestStub parseTele writeAllOk =
        ⟨.response "Unauthorized: Missing signature" 401, [], none, [.missingSignature]⟩ :=
  ⟨by decide, by decide, by decide,
    claim9_header_key envFull reqUpperSig digestStub parseTele writeAllOk (by decide) (by decide)
      (by decide)⟩

/-- C1 (amended): for every POST request with the configuration present
and a signature header present *with a non-empty value*, the handler
responds 401 "Unauthorized: Invalid signature" iff the header value
differs, under case-sensitive string equality, from the lowercase hex
encoding of HMAC-SHA256(secret, raw body); when they are equal, the
success confirmation is logged and no 401 is ever returned. (A header
present with the empty value is instead treated as missing — see the
counterexample.) -/
theorem claim1_signature_check (env : Env) (req : Request)
    (hmacDigest : String → String → List Nat) (parse : String → Except String Json)
    (writeOk : Nat → Bool) (s : String) (henv : envOk env) (hpost : req.method = "POST")
    (hs : lookupHeader "x-nrfcloud-signature" req.headers = some s) (hne : s ≠ "") :
    ((handler env req hmacDigest parse writeOk).outcome =
        .response "Unauthorized: Invalid signature" 401 ↔
      s ≠ calcSig env req hmacDigest) ∧
    (s = calcSig env req hmacDigest →
      LogEntry.sigVerified ∈ (handler env req hmacDigest parse writeOk).logs ∧
        ∀ b, (handler env req hmacDigest parse writeOk).outcome ≠ .response b 401) := by
  have hsh : sigHeader req = s := by unfold sigHeader; rw [hs]; rfl
  have hne' : sigHeader req ≠ "" := by rw [hsh]; exact hne
  by_cases heq : s = calcSig env req hmacDigest
  · have h2 := handler_after_verifier env req hmacDigest parse writeOk henv hpost hne'
      (by rw [hsh]; exact heq.symm)
    refine ⟨⟨fun hout => absurd hout (h2.2 _), fun hcon => absurd heq hcon⟩, fun _ => h2⟩
  · have hb := handler_bad_sig env req hmacDigest parse writeOk henv hpost hne'
      (by rw [hsh]; exact fun hc => heq hc.symm)
    rw [hb]
    exact ⟨⟨fun _ => heq, fun _ => rfl⟩, fun hcon => absurd hcon heq⟩

/-- Witness for C1: with the correct non-empty signature header, the
invalid-signature 401 is equivalent to a digest mismatch, and with the
matching value processing continues with no 401. -/
theorem claim1_witness :
    envOk envFull ∧ reqSigned.method = "POST" ∧
      lookupHeader "x-nrfcloud-signature" reqSigned.headers = some "0001abff" ∧
      "0001abff" ≠ "" ∧
      (((handler envFull reqSigned digestStub parseTele writeAllOk).outcome =
          .response "Unauthorized: Invalid signature" 401 ↔
        "0001abff" ≠ calcSig envFull reqSigned digestStub) ∧
       ("0001abff" = calcSig envFull reqSigned digestStub →
        LogEntry.sigVerified ∈ (handler envFull reqSigned digestStub parseTele writeAllOk).logs ∧
          ∀ b, (handler envFull reqSigned digestStub parseTele writeAllOk).outcome ≠
            .response b 401)) :=
  ⟨by decide, by decide, by decide, by decide,
    claim1_signature_check envFull reqSigned digestStub parseTele writeAllOk "0001abff"
      (by decide) (by decide) (by decide) (by decide)⟩

/-- C1 counterexample: a signature header that is *present* with the
empty value is rejected as "Unauthorized: Missing signature" by the
falsiness check, although the claim as stated predicts the
"Unauthorized: Invalid signature" body (the empty value differs from the
digest). -/
theorem claim1_counterexample :
    lookupHeader "x-nrfcloud-signature" reqEmptySig.headers = some "" ∧
      "" ≠ calcSig envFull reqEmptySig digestStub ∧
      (handler envFull reqEmptySig digestStub parseTele writeAllOk).outcome =
        .response "Unauthorized: Missing signature" 401 ∧
      (handler envFull reqEmptySig digestStub parseTele writeAllOk).outcome ≠
        .response "Unauthorized: Invalid signature" 401 := by decide

/-- C6 (amended): past all gates, a parsed payload that is **not JSON
null**, is not a verification event, and has no non-empty `messages`
array — an empty array, a missing field, or any other non-null JSON value
— takes the no-op branch: 200 "Webhook processing complete", no document
created, no client built, and the no-op notice logged. (A payload that
parses to JSON null instead crashes the handler at `payload.event` — see
the counterexample.) -/
theorem claim6_noop_branch (env : Env) (req : Request)
    (hmacDigest : String → String → List Nat) (parse : String → Except String Json)
    (writeOk : Nat → Bool) (payload : Json) (henv : envOk env)
    (hpost : req.method = "POST") (hne : sigHeader req ≠ "")
    (heq : calcSig env req hmacDigest = sigHeader req)
    (hp : parse req.body = .ok payload) (hnn : payload ≠ Json.null)
    (hv : payload.getField "event" ≠ some (Json.str "verification"))
    (hno : ∀ msgs, payload.getField "messages" = some (Json.arr msgs) → msgs = []) :
    handler env req hmacDigest parse writeOk =
      ⟨.response "Webhook processing complete" 200, [], none, [.sigVerified, .noMessages]⟩ :=
  handler_no_messages env req hmacDigest parse writeOk payload henv hpost hne heq hp hnn hv hno

/-- Witness for C6: a payload with an empty `messages` array is a no-op
answered 200. -/
theorem claim6_witness :
    envOk envFull ∧ reqSigned.method = "POST" ∧ sigHeader reqSigned ≠ "" ∧
      calcSig envFull reqSigned digestStub = sigHeader reqSigned ∧
      parseEmptyMsgs reqSigned.body = .ok payloadEmptyMsgs ∧
      payloadEmptyMsgs ≠ Json.null ∧
      payloadEmptyMsgs.getField "event" ≠ some (Json.str "verification") ∧
      (∀ msgs, payloadEmptyMsgs.getField "messages" = some (Json.arr msgs) → msgs = []) ∧
      handler envFull reqSigned digestStub parseEmptyMsgs writeAllOk =
        ⟨.response "Webhook processing complete" 200, [], none,
          [.sigVerified, .noMessages]⟩ := by
  have hno : ∀ msgs, payloadEmptyMsgs.getField "messages" = some (Json.arr msgs) →
      msgs = [] := by
    intro msgs hmm
    have h0 : payloadEmptyMsgs.getField "messages" = some (Json.arr []) := by decide
    rw [h0] at hmm
    exact (Json.arr.inj (Option.some.inj hmm)).symm
  exact ⟨by decide, by decide, by decide, by decide, rfl, by decide, by decide, hno,
    claim6_noop_branch envFull reqSigned digestStub parseEmptyMsgs writeAllOk payloadEmptyMsgs
      (by decide) (by decide) (by decide) (by decide) rfl (by decide) (by decide) hno⟩

/-- C6 counterexample: the claim's no-op inputs include a body parsing to
JSON null, but there the code throws a TypeError reading `payload.event`:
the outcome is a crash, not a 200 response. -/
theorem claim6_counterexample :
    parseNull reqSigned.body = .ok Json.null ∧
      (handler envFull reqSigned digestStub parseNull writeAllOk).outcome = .crash ∧
      (handler envFull reqSigned digestStub parseNull writeAllOk).outcome ≠
        .response "Webhook processing complete" 200 :=
  ⟨rfl, by decide, by decide⟩

/-- C2: past all gates, for a non-verification payload carrying a
non-empty `messages` array of well-formed messages, when every store
write succeeds the handler issues exactly one createDocument call per
message, in batch order, each against the configured database and
collection with the store-generated-id sentinel `'unique()'`, fields
deviceId/appId/timestamp read from the message's
`device_id`/`appId`/`ts`, and `payload` the `JSON.stringify` of the
message's payload field; the response is 200 "Webhook processing
complete". -/
theorem claim2_batch_success (env : Env) (req : Request)
    (hmacDigest : String → String → List Nat) (parse : String → Except String Json)
    (writeOk : Nat → Bool) (payload : Json) (msgs : List Json)
    (henv : envOk env) (hpost : req.method = "POST") (hne : sigHeader req ≠ "")
    (heq : calcSig env req hmacDigest = sigHeader req)
    (hp : parse req.body = .ok payload)
    (hv : payload.getField "event" ≠ some (Json.str "verification"))
    (hmsgs : payload.getField "messages" = some (Json.arr msgs)) (hnemp : msgs ≠ [])
    (hwf : ∀ m ∈ msgs, wellFormedMessage m = true)
    (hw : ∀ j, writeOk j = true) :
    (handler env req hmacDigest parse writeOk).calls =
        msgs.map (fun m =>
          ⟨env.DATABASE_ID.getD "", env.COLLECTION_ID.getD "", "unique()",
            m.getField "device_id", m.getField "appId", m.getField "ts",
            (m.getField "payload").map Json.stringify⟩) ∧
      (handler env req hmacDigest parse writeOk).outcome =
        .response "Webhook processing complete" 200 ∧
      (handler env req hmacDigest parse writeOk).logs =
        [LogEntry.sigVerified, LogEntry.processingCount msgs.length] ++
          msgs.map (fun m => LogEntry.storedMessage (m.getField "device_id")) := by
  have hnn : ∀ m ∈ msgs, m ≠ Json.null := by
    intro m hm hcon
    have hwfm := hwf m hm
    rw [hcon] at hwfm
    simp [wellFormedMessage, Json.isObj] at hwfm
  rw [handler_messages env req hmacDigest parse writeOk payload msgs henv hpost hne heq hp hv
    hmsgs hnemp]
  have hcalls := processMessages_calls (env.DATABASE_ID.getD "") (env.COLLECTION_ID.getD "")
    writeOk msgs 0 hnn
  have hnc := processMessages_not_crashed (env.DATABASE_ID.getD "") (env.COLLECTION_ID.getD "")
    writeOk msgs 0 hnn
  have hlogs := processMessages_logs_ok (env.DATABASE_ID.getD "") (env.COLLECTION_ID.getD "")
    writeOk msgs 0 hnn hw
  refine ⟨?_, ?_, ?_⟩
  · show (processMessages (env.DATABASE_ID.getD "") (env.COLLECTION_ID.getD "")
      writeOk msgs 0).calls = _
    rw [hcalls]
    rfl
  · show (if (processMessages (env.DATABASE_ID.getD "") (env.COLLECTION_ID.getD "")
      writeOk msgs 0).crashed then Outcome.crash
        else Outcome.response "Webhook processing complete" 200) = _
    rw [hnc]
    rfl
  · show [LogEntry.sigVerified, LogEntry.processingCount msgs.length] ++
      (processMessages (env.DATABASE_ID.getD "") (env.COLLECTION_ID.getD "")
        writeOk msgs 0).logs = _
    rw [hlogs]

/-- Witness for C2: a two-message batch with all writes succeeding yields
the two corresponding createDocument calls and a 200 response. -/
theorem claim2_witness :
    envOk envFull ∧ reqSigned.method = "POST" ∧ sigHeader reqSigned ≠ "" ∧
      calcSig envFull reqSigned digestStub = sigHeader reqSigned ∧
      parseTele reqSigned.body = .ok payloadTele ∧
      payloadTele.getField "event" ≠ some (Json.str "verification") ∧
      payloadTele.getField "messages" = some (Json.arr [msg1, msg2]) ∧
      [msg1, msg2] ≠ ([] : List Json) ∧
      (∀ m ∈ [msg1, msg2], wellFormedMessage m = true) ∧
      (∀ j, writeAllOk j = true) ∧
      ((handler envFull reqSigned digestStub parseTele writeAllOk).calls =
          [msg1, msg2].map (fun m =>
            ⟨envFull.DATABASE_ID.getD "", envFull.COLLECTION_ID.getD "", "unique()",
              m.getField "device_id", m.getField "appId", m.getField "ts",
              (m.getField "payload").map Json.stringify⟩) ∧
        (handler envFull reqSigned digestStub parseTele writeAllOk).outcome =
          .response "Webhook processing complete" 200 ∧
        (handler envFull reqSigned digestStub parseTele writeAllOk).logs =
          [LogEntry.sigVerified, LogEntry.processingCount [msg1, msg2].length] ++
            [msg1, msg2].map (fun m => LogEntry.storedMessage (m.getField "device_id"))) :=
  ⟨by decide, by decide, by decide, by decide, rfl, by decide, by decide, by decide, by decide,
    fun _ => rfl,
    claim2_batch_success envFull reqSigned digestStub parseTele writeAllOk payloadTele
      [msg1, msg2] (by decide) (by decide) (by decide) (by decide) rfl (by decide) (by decide)
      (by decide) (by decide) (fun _ => rfl)⟩

/-- C3 (amended): for a batch of **non-null** messages in which the
createDocument call for message k throws, the handler catches the
failure, logs it with the value of `message.device_id || 'unknown'` (the
device identifier when present and truthy, otherwise "unknown"), still
attempts every other message in batch order, and still responds 200
"Webhook processing complete". (With a null message in the batch the
catch block itself crashes re-reading `message.device_id` — see the
counterexample.) -/
theorem claim3_failure_isolation (env : Env) (req : Request)
    (hmacDigest : String → String → List Nat) (parse : String → Except String Json)
    (writeOk : Nat → Bool) (payload : Json) (msgs : List Json) (k : Nat)
    (henv : envOk env) (hpost : req.method = "POST") (hne : sigHeader req ≠ "")
    (heq : calcSig env req hmacDigest = sigHeader req)
    (hp : parse req.body = .ok payload)
    (hv : payload.getField "event" ≠ some (Json.str "verification"))
    (hmsgs : payload.getField "messages" = some (Json.arr msgs))
    (hk : k < msgs.length)
    (hnn : ∀ m ∈ msgs, m ≠ Json.null)
    (hwk : writeOk k = false) :
    (handler env req hmacDigest parse writeOk).outcome =
        .response "Webhook processing complete" 200 ∧
      (handler env req hmacDigest parse writeOk).calls =
        msgs.map (mkCall (env.DATABASE_ID.getD "") (env.COLLECTION_ID.getD "")) ∧
      LogEntry.dbError (jsOrUnknown ((msgs.get ⟨k, hk⟩).getField "device_id")) ∈
        (handler env req hmacDigest parse writeOk).logs := by
  have hnemp : msgs ≠ [] := by
    intro hcon
    rw [hcon] at hk
    simp at hk
  rw [handler_messages env req hmacDigest parse writeOk payload msgs henv hpost hne heq hp hv
    hmsgs hnemp]
  have hnc := processMessages_not_crashed (env.DATABASE_ID.getD "") (env.COLLECTION_ID.getD "")
    writeOk msgs 0 hnn
  have hcalls := processMessages_calls (env.DATABASE_ID.getD "") (env.COLLECTION_ID.getD "")
    writeOk msgs 0 hnn
  have hmem := processMessages_dbError_mem (env.DATABASE_ID.getD "") (env.COLLECTION_ID.getD "")
    writeOk msgs 0 k hk hnn (by rw [Nat.zero_add]; exact hwk)
  refine ⟨?_, ?_, ?_⟩
  · show (if (processMessages (env.DATABASE_ID.getD "") (env.COLLECTION_ID.getD "")
      writeOk msgs 0).crashed then Outcome.crash
        else Outcome.response "Webhook processing complete" 200) = _
    rw [hnc]
    rfl
  · show (processMessages (env.DATABASE_ID.getD "") (env.COLLECTION_ID.getD "")
      writeOk msgs 0).calls = _
    exact hcalls
  · show _ ∈ [LogEntry.sigVerified, LogEntry.processingCount msgs.length] ++
      (processMessages (env.DATABASE_ID.getD "") (env.COLLECTION_ID.getD "")
        writeOk msgs 0).logs
    exact List.mem_append.mpr (Or.inr hmem)

/-- Witness for C3: in the two-message batch, the write for the first
message fails, the "unknown"-defaulted device id is logged, both messages
were attempted, and the response is still 200. -/
theorem claim3_witness :
    envOk envFull ∧ reqSigned.method = "POST" ∧ sigHeader reqSigned ≠ "" ∧
      calcSig envFull reqSigned digestStub = sigHeader reqSigned ∧
      parseTele reqSigned.body = .ok payloadTele ∧
      payloadTele.getField "event" ≠ some (Json.str "verification") ∧
      payloadTele.getField "messages" = some (Json.arr [msg1, msg2]) ∧
      0 < [msg1, msg2].length ∧
      (∀ m ∈ [msg1, msg2], m ≠ Json.null) ∧
      writeFail0 0 = false ∧
      ((handler envFull reqSigned digestStub parseTele writeFail0).outcome =
          .response "Webhook processing complete" 200 ∧
        (handler envFull reqSigned digestStub parseTele writeFail0).calls =
          [msg1, msg2].map (mkCall (envFull.DATABASE_ID.getD "")
            (envFull.COLLECTION_ID.getD "")) ∧
        LogEntry.dbError (jsOrUnknown (([msg1, msg2].get
            ⟨0, by decide⟩).getField "device_id")) ∈
          (handler envFull reqSigned digestStub parseTele writeFail0).logs) :=
  ⟨by decide, by decide, by decide, by decide, rfl, by decide, by decide, by decide, by decide,
    rfl,
    claim3_failure_isolation envFull reqSigned digestStub parseTele writeFail0 payloadTele
      [msg1, msg2] 0 (by decide) (by decide) (by decide) (by decide) rfl (by decide) (by decide)
      (by decide) (by decide) rfl⟩

/-- C3 counterexample: in the batch [msg1, null] with the store failing,
the failure on msg1 is caught, but the null second message crashes the
handler inside the catch path: it is never attempted (only one
createDocument call occurs) and the response is not 200. -/
theorem claim3_counterexample :
    writeNever 0 = false ∧
      (handler envFull reqSigned digestStub parseMsgNull writeNever).outcome = .crash ∧
      (handler envFull reqSigned digestStub parseMsgNull writeNever).outcome ≠
        .response "Webhook processing complete" 200 ∧
      (handler envFull reqSigned digestStub parseMsgNull writeNever).calls =
        [mkCall "maindb" "telemetry" msg1] := by decide

/-- C4 (amended): the handler terminates with one of the response table's
entries — 500, 405, 401 missing signature, 401 invalid signature, 400,
200 verification acknowledgment, or 200 processing complete — for every
request whose body does not parse to JSON null and whose parsed
`messages` array, when present, contains no null element. (A null
payload, or a null element of a processed `messages` array, instead
raises an uncaught TypeError — see the counterexample.) -/
theorem claim4_total_responses (env : Env) (req : Request)
    (hmacDigest : String → String → List Nat) (parse : String → Except String Json)
    (writeOk : Nat → Bool)
    (hsafe : ∀ v, parse req.body = .ok v → v ≠ Json.null ∧
      ∀ msgs, v.getField "messages" = some (Json.arr msgs) → Json.null ∉ msgs) :
    (handler env req hmacDigest parse writeOk).outcome ∈
      [Outcome.response "Internal Server Error" 500,
       Outcome.response "Method Not Allowed" 405,
       Outcome.response "Unauthorized: Missing signature" 401,
       Outcome.response "Unauthorized: Invalid signature" 401,
       Outcome.response "Invalid JSON" 400,
       Outcome.response "Verification request acknowledged" 200,
       Outcome.response "Webhook processing complete" 200] := by
  by_cases henv : envOk env
  case neg => rw [handler_env_missing env req hmacDigest parse writeOk henv]; simp
  by_cases hpost : req.method = "POST"
  case neg => rw [handler_not_post env req hmacDigest parse writeOk henv hpost]; simp
  by_cases hsig : sigHeader req = ""
  case pos => rw [handler_missing_sig env req hmacDigest parse writeOk henv hpost hsig]; simp
  by_cases heq : calcSig env req hmacDigest = sigHeader req
  case neg => rw [handler_bad_sig env req hmacDigest parse writeOk henv hpost hsig heq]; simp
  rcases hp : parse req.body with e | payload
  · rw [handler_bad_json env req hmacDigest parse writeOk henv hpost hsig heq e hp]; simp
  · obtain ⟨hnn, hmem⟩ := hsafe payload hp
    by_cases hv : payload.getField "event" = some (Json.str "verification")
    · rw [handler_verification env req hmacDigest parse writeOk payload henv hpost hsig heq hp hv]
      simp
    · rcases hg : payload.getField "messages" with _ | v
      · rw [handler_no_messages env req hmacDigest parse writeOk payload henv hpost hsig heq hp
          hnn hv (fun msgs hmm => by rw [hg] at hmm; cases hmm)]
        simp
      · cases v with
        | arr items =>
            by_cases hemp : items = []
            · have hno : ∀ msgs, payload.getField "messages" = some (Json.arr msgs) →
                  msgs = [] := by
                intro msgs hmm
                rw [hg] at hmm
                simp only [Option.some.injEq, Json.arr.injEq] at hmm
                subst hmm
                exact hemp
              rw [handler_no_messages env req hmacDigest parse writeOk payload henv hpost hsig
                heq hp hnn hv hno]
              simp
            · rw [handler_messages env req hmacDigest parse writeOk payload items henv hpost hsig
                heq hp hv hg hemp]
              have hni : ∀ m ∈ items, m ≠ Json.null := by
                intro m hm hcon
                exact (hmem items hg) (hcon ▸ hm)
              have hnc := processMessages_not_crashed (env.DATABASE_ID.getD "")
                (env.COLLECTION_ID.getD "") writeOk items 0 hni
              simp [hnc]
        | null =>
            rw [handler_no_messages env req hmacDigest parse writeOk payload henv hpost hsig heq
              hp hnn hv (fun msgs hmm => by rw [hg] at hmm; simp at hmm)]
            simp
        | bool x =>
            rw [handler_no_messages env req hmacDigest parse writeOk payload henv hpost hsig heq
              hp hnn hv (fun msgs hmm => by rw [hg] at hmm; simp at hmm)]
            simp
        | num x =>
            rw [handler_no_messages env req hmacDigest parse writeOk payload henv hpost hsig heq
              hp hnn hv (fun msgs hmm => by rw [hg] at hmm; simp at hmm)]
            simp
        | str x =>
            rw [handler_no_messages env req hmacDigest parse writeOk payload henv hpost hsig heq
              hp hnn hv (fun msgs hmm => by rw [hg] at hmm; simp at hmm)]
            simp
        | obj fields =>
            rw [handler_no_messages env req hmacDigest parse writeOk payload henv hpost hsig heq
              hp hnn hv (fun msgs hmm => by rw [hg] at hmm; simp at hmm)]
            simp

/-- Witness for C4: the two-message telemetry request satisfies the
null-freedom proviso and indeed terminates in the response table. -/
theorem claim4_witness :
    (∀ v, parseTele reqSigned.body = .ok v → v ≠ Json.null ∧
      ∀ msgs, v.getField "messages" = some (Json.arr msgs) → Json.null ∉ msgs) ∧
      (handler envFull reqSigned digestStub parseTele writeAllOk).outcome ∈
        [Outcome.response "Internal Server Error" 500,
         Outcome.response "Method Not Allowed" 405,
         Outcome.response "Unauthorized: Missing signature" 401,
         Outcome.response "Unauthorized: Invalid signature" 401,
         Outcome.response "Invalid JSON" 400,
         Outcome.response "Verification request acknowledged" 200,
         Outcome.response "Webhook processing complete" 200] :=
  have hsafe : ∀ v, parseTele reqSigned.body = .ok v → v ≠ Json.null ∧
      ∀ msgs, v.getField "messages" = some (Json.arr msgs) → Json.null ∉ msgs := by
    intro v hv
    have hv2 : Except.ok payloadTele = Except.ok v := hv
    have hv3 : payloadTele = v := Except.ok.inj hv2
    subst hv3
    refine ⟨by decide, ?_⟩
    intro msgs hmm
    have h0 : payloadTele.getField "messages" = some (Json.arr [msg1, msg2]) := by decide
    rw [h0] at hmm
    have h1 : [msg1, msg2] = msgs := Json.arr.inj (Option.some.inj hmm)
    rw [← h1]
    decide
  ⟨hsafe, claim4_total_responses envFull reqSigned digestStub parseTele writeAllOk hsafe⟩

/-- C4 counterexample: a body parsing to JSON null makes the handler
throw an uncaught TypeError at `payload.event` instead of resolving with
any of the table's responses. -/
theorem claim4_counterexample :
    parseNull reqSigned.body = .ok Json.null ∧
      (handler envFull reqSigned digestStub parseNull writeAllOk).outcome = .crash ∧
      (handler envFull reqSigned digestStub parseNull writeAllOk).outcome ∉
        [Outcome.response "Internal Server Error" 500,
         Outcome.response "Method Not Allowed" 405,
         Outcome.response "Unauthorized: Missing signature" 401,
         Outcome.response "Unauthorized: Invalid signature" 401,
         Outcome.response "Invalid JSON" 400,
         Outcome.response "Verification request acknowledged" 200,
         Outcome.response "Webhook processing complete" 200] :=
  ⟨rfl, by decide, by decide⟩

/-- C10: the Appwrite client is constructed — reading APPWRITE_ENDPOINT,
APPWRITE_PROJECT_ID and APPWRITE_API_KEY — exactly when every gate has
passed, the payload is not a verification event, and `messages` is a
non-empty array; every request rejected by a gate, acknowledged as
verification, or lacking messages finishes without constructing the
client or touching those three values. -/
theorem claim10_client_frame (env : Env) (req : Request)
    (hmacDigest : String → String → List Nat) (parse : String → Except String Json)
    (writeOk : Nat → Bool) :
    ((handler env req hmacDigest parse writeOk).client = none ∨
      (handler env req hmacDigest parse writeOk).client =
        some ⟨env.APPWRITE_ENDPOINT, env.APPWRITE_PROJECT_ID, env.APPWRITE_API_KEY⟩) ∧
    ((handler env req hmacDigest parse writeOk).client ≠ none ↔
      envOk env ∧ req.method = "POST" ∧ sigHeader req ≠ "" ∧
        calcSig env req hmacDigest = sigHeader req ∧
        ∃ payload, parse req.body = .ok payload ∧
          payload.getField "event" ≠ some (Json.str "verification") ∧
          ∃ msgs, payload.getField "messages" = some (Json.arr msgs) ∧ msgs ≠ []) := by
  by_cases henv : envOk env
  case neg =>
    rw [handler_env_missing env req hmacDigest parse writeOk henv]
    exact ⟨Or.inl rfl, ⟨fun h => absurd rfl h, fun hr => absurd hr.1 henv⟩⟩
  by_cases hpost : req.method = "POST"
  case neg =>
    rw [handler_not_post env req hmacDigest parse writeOk henv hpost]
    exact ⟨Or.inl rfl, ⟨fun h => absurd rfl h, fun hr => absurd hr.2.1 hpost⟩⟩
  by_cases hsig : sigHeader req = ""
  case pos =>
    rw [handler_missing_sig env req hmacDigest parse writeOk henv hpost hsig]
    exact ⟨Or.inl rfl, ⟨fun h => absurd rfl h, fun hr => absurd hsig hr.2.2.1⟩⟩
  by_cases heq : calcSig env req hmacDigest = sigHeader req
  case neg =>
    rw [handler_bad_sig env req hmacDigest parse writeOk henv hpost hsig heq]
    exact ⟨Or.inl rfl, ⟨fun h => absurd rfl h, fun hr => absurd hr.2.2.2.1 heq⟩⟩
  rcases hp : parse req.body with e | payload
  · rw [handler_bad_json env req hmacDigest parse writeOk henv hpost hsig heq e hp]
    refine ⟨Or.inl rfl, ⟨fun h => absurd rfl h, ?_⟩⟩
    rintro ⟨-, -, -, -, p2, hpp, -⟩
    cases hpp
  · by_cases hnull : payload = Json.null
    · subst hnull
      rw [handler_null_payload env req hmacDigest parse writeOk henv hpost hsig heq hp]
      refine ⟨Or.inl rfl, ⟨fun h => absurd rfl h, ?_⟩⟩
      rintro ⟨-, -, -, -, p2, hpp, -, msgs, hmm, -⟩
      obtain rfl : Json.null = p2 := Except.ok.inj hpp
      simp [Json.getField] at hmm
    · by_cases hv : payload.getField "event" = some (Json.str "verification")
      · rw [handler_verification env req hmacDigest parse writeOk payload henv hpost hsig heq
          hp hv]
        refine ⟨Or.inl rfl, ⟨fun h => absurd rfl h, ?_⟩⟩
        rintro ⟨-, -, -, -, p2, hpp, hv2, -⟩
        obtain rfl : payload = p2 := Except.ok.inj hpp
        exact absurd hv hv2
      · rcases hg : payload.getField "messages" with _ | v
        · rw [handler_no_messages env req hmacDigest parse writeOk payload henv hpost hsig heq
            hp hnull hv (fun msgs hmm => by rw [hg] at hmm; cases hmm)]
          refine ⟨Or.inl rfl, ⟨fun h => absurd rfl h, ?_⟩⟩
          rintro ⟨-, -, -, -, p2, hpp, -, msgs, hmm, -⟩
          obtain rfl : payload = p2 := Except.ok.inj hpp
          rw [hg] at hmm
          cases hmm
        · cases v with
          | arr items =>
              by_cases hemp : items = []
              · have hno : ∀ msgs, payload.getField "messages" = some (Json.arr msgs) →
                    msgs = [] := by
                  intro msgs hmm
                  rw [hg] at hmm
                  simp only [Option.some.injEq, Json.arr.injEq] at hmm
                  subst hmm
                  exact hemp
                rw [handler_no_messages env req hmacDigest parse writeOk payload henv hpost hsig
                  heq hp hnull hv hno]
                refine ⟨Or.inl rfl, ⟨fun h => absurd rfl h, ?_⟩⟩
                rintro ⟨-, -, -, -, p2, hpp, -, msgs, hmm, hne2⟩
                obtain rfl : payload = p2 := Except.ok.inj hpp
                exact absurd (hno msgs hmm) hne2
              · rw [handler_messages env req hmacDigest parse writeOk payload items henv hpost
                  hsig heq hp hv hg hemp]
                refine ⟨Or.inr rfl, ⟨fun _ => ?_, fun _ => fun hcon => Option.noConfusion hcon⟩⟩
                exact ⟨henv, hpost, hsig, heq, payload, rfl, hv, items, hg, hemp⟩
          | null =>
              rw [handler_no_messages env req hmacDigest parse writeOk payload henv hpost hsig
                heq hp hnull hv (fun msgs hmm => by rw [hg] at hmm; simp at hmm)]
              refine ⟨Or.inl rfl, ⟨fun h => absurd rfl h, ?_⟩⟩
              rintro ⟨-, -, -, -, p2, hpp, -, msgs, hmm, -⟩
              obtain rfl : payload = p2 := Except.ok.inj hpp
              rw [hg] at hmm
              simp at hmm
          | bool x =>
              rw [handler_no_messages env req hmacDigest parse writeOk payload henv hpost hsig
                heq hp hnull hv (fun msgs hmm => by rw [hg] at hmm; simp at hmm)]
              refine ⟨Or.inl rfl, ⟨fun h => absurd rfl h, ?_⟩⟩
              rintro ⟨-, -, -, -, p2, hpp, -, msgs, hmm, -⟩
              obtain rfl : payload = p2 := Except.ok.inj hpp
              rw [hg] at hmm
              simp at hmm
          | num x =>
              rw [handler_no_messages env req hmacDigest parse writeOk payload henv hpost hsig
                heq hp hnull hv (fun msgs hmm => by rw [hg] at hmm; simp at hmm)]
              refine ⟨Or.inl rfl, ⟨fun h => absurd rfl h, ?_⟩⟩
              rintro ⟨-, -, -, -, p2, hpp, -, msgs, hmm, -⟩
              obtain rfl : payload = p2 := Except.ok.inj hpp
              rw [hg] at hmm
              simp at hmm
          | str x =>
              rw [handler_no_messages env req hmacDigest parse writeOk payload henv hpost hsig
                heq hp hnull hv (fun msgs hmm => by rw [hg] at hmm; simp at hmm)]
              refine ⟨Or.inl rfl, ⟨fun h => absurd rfl h, ?_⟩⟩
              rintro ⟨-, -, -, -, p2, hpp, -, msgs, hmm, -⟩
              obtain rfl : payload = p2 := Except.ok.inj hpp
              rw [hg] at hmm
              simp at hmm
          | obj fields =>
              rw [handler_no_messages env req hmacDigest parse writeOk payload henv hpost hsig
                heq hp hnull hv (fun msgs hmm => by rw [hg] at hmm; simp at hmm)]
              refine ⟨Or.inl rfl, ⟨fun h => absurd rfl h, ?_⟩⟩
              rintro ⟨-, -, -, -, p2, hpp, -, msgs, hmm, -⟩
              obtain rfl : payload = p2 := Except.ok.inj hpp
              rw [hg] at hmm
              simp at hmm

end NrfWebhook
